import Mathlib

/-!
Verification of the UniSIMD assembler encoding layer against its
natural-language specification.

The development shallowly embeds the emission rules of
`src/core/rtarch_x86.h` (x86 BASE instructions),
`src/core/rtarch_arm_128.h` (ARMv7 NEON 128-bit SIMD) and
`src/core/config/rtarch_x64_512x1v8.h` (x64 AVX-512 512-bit SIMD).

Two kinds of embedding are used:
* encoders: pure functions from operand descriptors to the emitted
  byte/word stream, transcribed macro by macro;
* semantics: state-transformer models of the synthesized multi-instruction
  sequences (register file, stack, scratch memory), used for the frame and
  equivalence properties.
-/

namespace UniSIMD

/-! ## Emission-stream model

`EMITB` emits one byte into the assembly stream, `EMITW` one 32-bit word;
the stream is modelled as a list of tagged items so that byte layouts can
be compared structurally. -/

/-- One item of the emitted stream: a byte (`EMITB`) or a 32-bit word (`EMITW`). -/
inductive Emit where
| B : Nat → Emit
| W : Nat → Emit
deriving DecidableEq, Repr

/-- Value carried by an emitted item. -/
def Emit.val : Emit → Nat
| .B b => b
| .W w => w

namespace X86

/-- ModRM byte, from rtarch_x86.h: EMITB((mod) << 6 | (reg) << 3 | (rem)). -/
def MRM (reg md rem : Nat) : Emit := .B (md <<< 6 ||| reg <<< 3 ||| rem)

/-- Operand triplet (REG, MOD, SIB) from rtarch_x86.h; SIB is the list of
emitted SIB bytes (EMPTY for plain register/base addressing). -/
structure Opd where
  reg : Nat
  md  : Nat
  sib : List Emit
deriving DecidableEq, Repr

/-- Register Reax (REG 0x00, MOD 0x03, no SIB). -/
def Reax : Opd := ⟨0x00, 0x03, []⟩

/-- Register Recx. -/
def Recx : Opd := ⟨0x01, 0x03, []⟩

/-- Register Redx. -/
def Redx : Opd := ⟨0x02, 0x03, []⟩

/-- Register Rebx. -/
def Rebx : Opd := ⟨0x03, 0x03, []⟩

/-- Register Rebp. -/
def Rebp : Opd := ⟨0x05, 0x03, []⟩

/-- Register Resi. -/
def Resi : Opd := ⟨0x06, 0x03, []⟩

/-- Register Redi. -/
def Redi : Opd := ⟨0x07, 0x03, []⟩

/-- Addressing mode Mecx: memory at ecx + DP. -/
def Mecx : Opd := ⟨0x01, 0x02, []⟩

/-- Addressing mode Mebp: memory at ebp + DP. -/
def Mebp : Opd := ⟨0x05, 0x02, []⟩

/-- Addressing mode Iecx: memory at ecx + eax + DP (SIB byte 0x01). -/
def Iecx : Opd := ⟨0x04, 0x02, [.B 0x01]⟩

/-- Immediate triplet (VAL, TYP, CMD) from rtarch_x86.h. -/
structure Imm where
  val : Nat
  typ : Nat
  cmd : List Emit
deriving DecidableEq, Repr

/-- Immediate class IC: (im), 0x02, EMITB((im) & 0x7F). -/
def IC (im : Nat) : Imm := ⟨im, 0x02, [.B (im &&& 0x7F)]⟩

/-- Immediate class IB: (im), 0x00, EMITW((im) & 0xFF). -/
def IB (im : Nat) : Imm := ⟨im, 0x00, [.W (im &&& 0xFF)]⟩

/-- Immediate class IM: (im), 0x00, EMITW((im) & 0xFFF). -/
def IM (im : Nat) : Imm := ⟨im, 0x00, [.W (im &&& 0xFFF)]⟩

/-- Immediate class IG: (im), 0x00, EMITW((im) & 0x7FFF). -/
def IG (im : Nat) : Imm := ⟨im, 0x00, [.W (im &&& 0x7FFF)]⟩

/-- Immediate class IH: (im), 0x00, EMITW((im) & 0xFFFF). -/
def IH (im : Nat) : Imm := ⟨im, 0x00, [.W (im &&& 0xFFFF)]⟩

/-- Immediate class IV: (im), 0x00, EMITW((im) & 0x7FFFFFFF). -/
def IV (im : Nat) : Imm := ⟨im, 0x00, [.W (im &&& 0x7FFFFFFF)]⟩

/-- Immediate class IW: (im), 0x00, EMITW((im) & 0xFFFFFFFF). -/
def IW (im : Nat) : Imm := ⟨im, 0x00, [.W (im &&& 0xFFFFFFFF)]⟩

/-- Displacement triplet (VAL, TYP, CMD); Q is the build-time width factor. -/
structure Disp where
  val : Nat
  typ : Nat
  cmd : List Emit
deriving DecidableEq, Repr

/-- Displacement class DP: (dp), 0x00, EMITW((dp) & ((0xFFC * Q) | 0xC)). -/
def DP (Q dp : Nat) : Disp := ⟨dp, 0x00, [.W (dp &&& ((0xFFC * Q) ||| 0xC))]⟩

/-- Displacement class DF: (dp), 0x00, EMITW((dp) & ((0x3FFC * Q) | 0xC)). -/
def DF (Q dp : Nat) : Disp := ⟨dp, 0x00, [.W (dp &&& ((0x3FFC * Q) ||| 0xC))]⟩

/-- Displacement class DG: (dp), 0x00, EMITW((dp) & ((0x7FFC * Q) | 0xC)). -/
def DG (Q dp : Nat) : Disp := ⟨dp, 0x00, [.W (dp &&& ((0x7FFC * Q) ||| 0xC))]⟩

/-- Displacement class DH: (dp), 0x00, EMITW((dp) & ((0xFFFC * Q) | 0xC)). -/
def DH (Q dp : Nat) : Disp := ⟨dp, 0x00, [.W (dp &&& ((0xFFFC * Q) ||| 0xC))]⟩

/-- Displacement class DV: (dp), 0x00, EMITW((dp) & 0x7FFFFFFC). -/
def DV (dp : Nat) : Disp := ⟨dp, 0x00, [.W (dp &&& 0x7FFFFFFC)]⟩

/-- Enumeration of the displacement classes. -/
inductive DispClass where
| dp | df | dg | dh | dv
deriving DecidableEq, Repr

/-- Encoder dispatch over displacement classes (each case is the
corresponding source constructor). -/
def dispEncode : DispClass → Nat → Nat → Disp
| .dp, Q, v => DP Q v
| .df, Q, v => DF Q v
| .dg, Q, v => DG Q v
| .dh, Q, v => DH Q v
| .dv, _, v => DV v

/-- Documented mask of each displacement class, as stated by the spec:
DP masks with (0xFFC*Q)|0xC, DF with (0x3FFC*Q)|0xC, DG with
(0x7FFC*Q)|0xC, DH with (0xFFFC*Q)|0xC, DV with 0x7FFFFFFC. -/
def dispMaskSpec : DispClass → Nat → Nat
| .dp, Q => (0xFFC * Q) ||| 0xC
| .df, Q => (0x3FFC * Q) ||| 0xC
| .dg, Q => (0x7FFC * Q) ||| 0xC
| .dh, Q => (0xFFFC * Q) ||| 0xC
| .dv, _ => 0x7FFFFFFC

/-- Enumeration of the immediate classes. -/
inductive ImmClass where
| ic | ib | im | ig | ih | iv | iw
deriving DecidableEq, Repr

/-- Encoder dispatch over immediate classes. -/
def immEncode : ImmClass → Nat → Imm
| .ic, v => IC v
| .ib, v => IB v
| .im, v => IM v
| .ig, v => IG v
| .ih, v => IH v
| .iv, v => IV v
| .iw, v => IW v

/-- Documented fixed mask of each immediate class, as stated by the spec
(IC masks with 0x7F, IB with 0xFF, IM with 0xFFF, IG with 0x7FFF,
IH with 0xFFFF, IV with 0x7FFFFFFF, IW with 0xFFFFFFFF). -/
def immMaskSpec : ImmClass → Nat
| .ic => 0x7F
| .ib => 0xFF
| .im => 0xFFF
| .ig => 0x7FFF
| .ih => 0xFFFF
| .iv => 0x7FFFFFFF
| .iw => 0xFFFFFFFF

/-! ### Instruction encoders (byte layouts) from rtarch_x86.h -/

/-- Shared layout of the 0x81-family register-from-immediate forms:
EMITB(0x81 | TYP(IM)), MRM(ext, MOD(RM), REG(RM)), AUX(_, _, CMD(IM)). -/
def riLayout (ext : Nat) (rm : Opd) (im : Imm) : List Emit :=
  [.B (0x81 ||| im.typ), MRM ext rm.md rm.reg] ++ im.cmd

/-- Shared layout of the two-byte register-from-register forms:
EMITB(opc), MRM(REG(RG), MOD(RM), REG(RM)). -/
def rrLayout (opc : Nat) (rg rm : Opd) : List Emit :=
  [.B opc, MRM rg.reg rm.md rm.reg]

/-- addwz_ri from rtarch_x86.h. -/
def addwz_ri (rm : Opd) (im : Imm) : List Emit :=
  [.B (0x81 ||| im.typ), MRM 0x00 rm.md rm.reg] ++ im.cmd

/-- subwz_ri from rtarch_x86.h. -/
def subwz_ri (rm : Opd) (im : Imm) : List Emit :=
  [.B (0x81 ||| im.typ), MRM 0x05 rm.md rm.reg] ++ im.cmd

/-- andwz_ri from rtarch_x86.h. -/
def andwz_ri (rm : Opd) (im : Imm) : List Emit :=
  [.B (0x81 ||| im.typ), MRM 0x04 rm.md rm.reg] ++ im.cmd

/-- orrwz_ri from rtarch_x86.h. -/
def orrwz_ri (rm : Opd) (im : Imm) : List Emit :=
  [.B (0x81 ||| im.typ), MRM 0x01 rm.md rm.reg] ++ im.cmd

/-- xorwz_ri from rtarch_x86.h. -/
def xorwz_ri (rm : Opd) (im : Imm) : List Emit :=
  [.B (0x81 ||| im.typ), MRM 0x06 rm.md rm.reg] ++ im.cmd

/-- cmpwx_ri from rtarch_x86.h. -/
def cmpwx_ri (rm : Opd) (im : Imm) : List Emit :=
  [.B (0x81 ||| im.typ), MRM 0x07 rm.md rm.reg] ++ im.cmd

/-- addwz_rr from rtarch_x86.h: EMITB(0x03), MRM(REG(RG), MOD(RM), REG(RM)). -/
def addwz_rr (rg rm : Opd) : List Emit :=
  [.B 0x03, MRM rg.reg rm.md rm.reg]

/-- subwz_rr from rtarch_x86.h: EMITB(0x2B). -/
def subwz_rr (rg rm : Opd) : List Emit :=
  [.B 0x2B, MRM rg.reg rm.md rm.reg]

/-- mulwx_ri from rtarch_x86.h: EMITB(0x69 | TYP(IM)),
MRM(REG(RM), MOD(RM), REG(RM)), AUX(_, _, CMD(IM)). -/
def mulwx_ri (rm : Opd) (im : Imm) : List Emit :=
  [.B (0x69 ||| im.typ), MRM rm.reg rm.md rm.reg] ++ im.cmd

/-- mulwx_rr from rtarch_x86.h: EMITB(0x0F) EMITB(0xAF), MRM(...). -/
def mulwx_rr (rg rm : Opd) : List Emit :=
  [.B 0x0F, .B 0xAF, MRM rg.reg rm.md rm.reg]

/-- shlwz_ri from rtarch_x86.h: EMITB(0xC1), MRM(0x04, MOD(RM), REG(RM)),
AUX(EMPTY, EMPTY, EMITB(VAL(IM) & 0x1F)). -/
def shlwz_ri (rm : Opd) (im : Imm) : List Emit :=
  [.B 0xC1, MRM 0x04 rm.md rm.reg, .B (im.val &&& 0x1F)]

/-- shrwz_ri from rtarch_x86.h: EMITB(0xC1), MRM(0x05, ...),
EMITB(VAL(IM) & 0x1F). -/
def shrwz_ri (rm : Opd) (im : Imm) : List Emit :=
  [.B 0xC1, MRM 0x05 rm.md rm.reg, .B (im.val &&& 0x1F)]

/-! ### Condition-code to native-branch mapping from rtarch_x86.h -/

/-- Native x86 branch mnemonics emitted by the j*_lb macros. -/
inductive Mnemonic where
| jmp | jz | jnz | je | jne | jb | jbe | ja | jae | jl | jle | jg | jge
deriving DecidableEq, Repr

/-- jeqxx_lb: ASM_OP1(je, lb). -/
def jeqxx_lb (lb : Nat) : Mnemonic × Nat := (.je, lb)

/-- jnexx_lb: ASM_OP1(jne, lb). -/
def jnexx_lb (lb : Nat) : Mnemonic × Nat := (.jne, lb)

/-- jltxx_lb: ASM_OP1(jb, lb). -/
def jltxx_lb (lb : Nat) : Mnemonic × Nat := (.jb, lb)

/-- jlexx_lb: ASM_OP1(jbe, lb). -/
def jlexx_lb (lb : Nat) : Mnemonic × Nat := (.jbe, lb)

/-- jgtxx_lb: ASM_OP1(ja, lb). -/
def jgtxx_lb (lb : Nat) : Mnemonic × Nat := (.ja, lb)

/-- jgexx_lb: ASM_OP1(jae, lb). -/
def jgexx_lb (lb : Nat) : Mnemonic × Nat := (.jae, lb)

/-- jltxn_lb: ASM_OP1(jl, lb). -/
def jltxn_lb (lb : Nat) : Mnemonic × Nat := (.jl, lb)

/-- jlexn_lb: ASM_OP1(jle, lb). -/
def jlexn_lb (lb : Nat) : Mnemonic × Nat := (.jle, lb)

/-- jgtxn_lb: ASM_OP1(jg, lb). -/
def jgtxn_lb (lb : Nat) : Mnemonic × Nat := (.jg, lb)

/-- jgexn_lb: ASM_OP1(jge, lb). -/
def jgexn_lb (lb : Nat) : Mnemonic × Nat := (.jge, lb)

/-- Portable condition codes of the cmj/arj combinators (x suffix denotes
the unsigned variant, n the signed variant). -/
inductive CondCode where
| eqX | neX | ltX | leX | gtX | geX | ltN | leN | gtN | geN
deriving DecidableEq, Repr

/-- The condition-code table of rtarch_x86.h (EQ_x = jeqxx_lb, ...,
LT_x = jltxx_lb, LT_n = jltxn_lb, ...). -/
def ccBranch : CondCode → Nat → Mnemonic × Nat
| .eqX => jeqxx_lb
| .neX => jnexx_lb
| .ltX => jltxx_lb
| .leX => jlexx_lb
| .gtX => jgtxx_lb
| .geX => jgexx_lb
| .ltN => jltxn_lb
| .leN => jlexn_lb
| .gtN => jgtxn_lb
| .geN => jgexn_lb

/-! ### Semantics of the synthesized x86 BASE sequences

State-transformer model of the 32-bit BASE instruction subset used by the
synthesized shift/div/rem sequences: a register file indexed by the REG
codes of the operand triplets, a push/pop stack, and a byte-addressed
scratch memory for the Mebp + inf_SCR01 slot and load operands. -/

/-- Pointwise update of a Nat-indexed map. -/
def upd (f : Nat → Nat) (i v : Nat) : Nat → Nat :=
  fun j => if j = i then v else f j

/-- Machine state for BASE sequences: 32-bit registers (indexed by REG
code), the hardware stack, and memory (abstract addresses). -/
structure XSt where
  regs  : Nat → Nat
  stack : List Nat
  mem   : Nat → Nat

/-- stack_st: EMITB(0xFF), MRM(0x06,...) — push the register. -/
def stack_st (rm : Opd) (s : XSt) : XSt :=
  { s with stack := s.regs rm.reg :: s.stack }

/-- stack_ld: EMITB(0x8F), MRM(0x00,...) — pop into the register. -/
def stack_ld (rm : Opd) (s : XSt) : XSt :=
  match s.stack with
  | [] => { s with regs := upd s.regs rm.reg 0 }
  | v :: t => { s with regs := upd s.regs rm.reg v, stack := t }

/-- movwx_rr: register := register. -/
def movwx_rr (rg rm : Opd) (s : XSt) : XSt :=
  { s with regs := upd s.regs rg.reg (s.regs rm.reg) }

/-- movwx_ld: register := memory at address a. -/
def movwx_ld (rg : Opd) (a : Nat) (s : XSt) : XSt :=
  { s with regs := upd s.regs rg.reg (s.mem a) }

/-- Truncation mask of movwx_ri/movwx_mi: VAL(IM) & ((TYP(IM) << 6) - 1),
with the C unsigned-underflow wrap for TYP 0x00 made explicit
((0 << 6) - 1 wraps to 0xFFFFFFFF on a 32-bit unsigned). -/
def movTruncMask (typ : Nat) : Nat := ((typ <<< 6) + 2 ^ 32 - 1) % 2 ^ 32

/-- movwx_ri: register := truncated immediate. -/
def movwx_ri (rm : Opd) (im : Imm) (s : XSt) : XSt :=
  { s with regs := upd s.regs rm.reg (im.val &&& movTruncMask im.typ) }

/-- movwx_mi: memory at address a := truncated immediate. -/
def movwx_mi (a : Nat) (im : Imm) (s : XSt) : XSt :=
  { s with mem := upd s.mem a (im.val &&& movTruncMask im.typ) }

/-- shlwz_rx: register := register << (ecx mod 32), 32-bit
(reads Recx for the shift value). -/
def shlwz_rx (rm : Opd) (s : XSt) : XSt :=
  { s with regs := (upd s.regs rm.reg ((s.regs rm.reg <<< (s.regs Recx.reg % 32)) % 2 ^ 32)) }

/-- shlwz_mx: memory := memory << (ecx mod 32), 32-bit. -/
def shlwz_mx (a : Nat) (s : XSt) : XSt :=
  { s with mem := (upd s.mem a ((s.mem a <<< (s.regs Recx.reg % 32)) % 2 ^ 32)) }

/-- shrwz_rx: logical right shift by (ecx mod 32). -/
def shrwz_rx (rm : Opd) (s : XSt) : XSt :=
  { s with regs := (upd s.regs rm.reg ((s.regs rm.reg % 2 ^ 32) >>> (s.regs Recx.reg % 32))) }

/-- shrwz_mx: logical right shift of memory by (ecx mod 32). -/
def shrwz_mx (a : Nat) (s : XSt) : XSt :=
  { s with mem := (upd s.mem a ((s.mem a % 2 ^ 32) >>> (s.regs Recx.reg % 32))) }

/-- 32-bit arithmetic right shift (sign bit replicated). -/
def asr32 (v k : Nat) : Nat :=
  ((if v % 2 ^ 32 < 2 ^ 31 then v % 2 ^ 32 else v % 2 ^ 32 + (2 ^ 64 - 2 ^ 32)) >>> k) % 2 ^ 32

/-- shrwn_rx: arithmetic right shift by (ecx mod 32). -/
def shrwn_rx (rm : Opd) (s : XSt) : XSt :=
  { s with regs := upd s.regs rm.reg (asr32 (s.regs rm.reg) (s.regs Recx.reg % 32)) }

/-- shrwn_mx: arithmetic right shift of memory by (ecx mod 32). -/
def shrwn_mx (a : Nat) (s : XSt) : XSt :=
  { s with mem := upd s.mem a (asr32 (s.mem a) (s.regs Recx.reg % 32)) }

/-- shrwn_ri semantics: arithmetic right shift by the immediate mod 32. -/
def shrwn_ri (rm : Opd) (im : Imm) (s : XSt) : XSt :=
  { s with regs := upd s.regs rm.reg (asr32 (s.regs rm.reg) (im.val &&& 0x1F)) }

/-- Unsigned 64/32 divide step of divwx_x*: Reax is in/out (quotient),
Redx is in/out (remainder, junk for callers), dividend is edx:eax,
divisor the value v. -/
def divStepU (v : Nat) (s : XSt) : XSt :=
  let n := (s.regs Redx.reg % 2 ^ 32) * 2 ^ 32 + s.regs Reax.reg % 2 ^ 32
  let d := v % 2 ^ 32
  { s with regs := upd (upd s.regs Reax.reg ((n / d) % 2 ^ 32)) Redx.reg ((n % d) % 2 ^ 32) }

/-- divwx_xr: EMITB(0xF7), MRM(0x06,...) — unsigned divide by a register. -/
def divwx_xr (rm : Opd) (s : XSt) : XSt := divStepU (s.regs rm.reg) s

/-- divwx_xm: unsigned divide by a memory operand. -/
def divwx_xm (a : Nat) (s : XSt) : XSt := divStepU (s.mem a) s

/-- Two's-complement reading of a 32-bit register value. -/
def toS32 (v : Nat) : Int :=
  if v % 2 ^ 32 < 2 ^ 31 then (v % 2 ^ 32 : Int) else (v % 2 ^ 32 : Int) - 2 ^ 32

/-- Two's-complement reading of the 64-bit edx:eax pair. -/
def toS64pair (hi lo : Nat) : Int :=
  let t : Nat := (hi % 2 ^ 32) * 2 ^ 32 + lo % 2 ^ 32
  if t < 2 ^ 63 then (t : Int) else (t : Int) - 2 ^ 64

/-- 32-bit unsigned image of a signed value. -/
def fromS32 (i : Int) : Nat := (i % 2 ^ 32).toNat

/-- Signed 64/32 divide step of divwn_x* (x86 idiv truncates toward 0). -/
def divStepS (v : Nat) (s : XSt) : XSt :=
  let n := toS64pair (s.regs Redx.reg) (s.regs Reax.reg)
  let d := toS32 v
  { s with regs := upd (upd s.regs Reax.reg (fromS32 (Int.tdiv n d))) Redx.reg (fromS32 (Int.tmod n d)) }

/-- divwn_xr: EMITB(0xF7), MRM(0x07,...) — signed divide by a register. -/
def divwn_xr (rm : Opd) (s : XSt) : XSt := divStepS (s.regs rm.reg) s

/-- divwn_xm: signed divide by a memory operand. -/
def divwn_xm (a : Nat) (s : XSt) : XSt := divStepS (s.mem a) s

/-- prewx_xx from rtarch_x86.h: movwx_ri(Redx, IC(0)). -/
def prewx_xx (s : XSt) : XSt := movwx_ri Redx (IC 0) s

/-- prewn_xx from rtarch_x86.h: movwx_rr(Redx, Reax), shrwn_ri(Redx, IC(31)). -/
def prewn_xx (s : XSt) : XSt := shrwn_ri Redx (IC 31) (movwx_rr Redx Reax s)

/-- Modelled from the spec: prewx_rr is invoked by the div/rem sequences but
is defined outside the provided sources; per the resolver design it prepares
Redx for unsigned integer divide exactly as the in-source prewx_xx does
(Redx := 0). -/
def prewx_rr (s : XSt) : XSt := prewx_xx s

/-- Modelled from the spec: prewn_rr prepares Redx for signed integer divide
exactly as the in-source prewn_xx does (Redx := sign-fill of Reax). -/
def prewn_rr (s : XSt) : XSt := prewn_xx s

/-- Abstract address of the Mebp + inf_SCR01(0) scratch slot. -/
def scr01Addr : Nat := 0x1000

/-- shlwz_rr sequence: stack_st(Recx); movwx_rr(Recx, RM); shlwz_rx(RG);
stack_ld(Recx). -/
def shlwz_rr (rg rm : Opd) (s : XSt) : XSt :=
  s |> stack_st Recx |> movwx_rr Recx rm |> shlwz_rx rg |> stack_ld Recx

/-- shlwz_ld sequence: stack_st(Recx); movwx_ld(Recx, RM, DP); shlwz_rx(RG);
stack_ld(Recx). -/
def shlwz_ld (rg : Opd) (a : Nat) (s : XSt) : XSt :=
  s |> stack_st Recx |> movwx_ld Recx a |> shlwz_rx rg |> stack_ld Recx

/-- shlwz_st sequence: stack_st(Recx); movwx_rr(Recx, RG); shlwz_mx(RM, DP);
stack_ld(Recx). -/
def shlwz_st (rg : Opd) (a : Nat) (s : XSt) : XSt :=
  s |> stack_st Recx |> movwx_rr Recx rg |> shlwz_mx a |> stack_ld Recx

/-- shrwz_rr sequence (logical). -/
def shrwz_rr (rg rm : Opd) (s : XSt) : XSt :=
  s |> stack_st Recx |> movwx_rr Recx rm |> shrwz_rx rg |> stack_ld Recx

/-- shrwz_ld sequence (logical). -/
def shrwz_ld (rg : Opd) (a : Nat) (s : XSt) : XSt :=
  s |> stack_st Recx |> movwx_ld Recx a |> shrwz_rx rg |> stack_ld Recx

/-- shrwz_st sequence (logical). -/
def shrwz_st (rg : Opd) (a : Nat) (s : XSt) : XSt :=
  s |> stack_st Recx |> movwx_rr Recx rg |> shrwz_mx a |> stack_ld Recx

/-- shrwn_rr sequence (arithmetic). -/
def shrwn_rr (rg rm : Opd) (s : XSt) : XSt :=
  s |> stack_st Recx |> movwx_rr Recx rm |> shrwn_rx rg |> stack_ld Recx

/-- shrwn_ld sequence (arithmetic). -/
def shrwn_ld (rg : Opd) (a : Nat) (s : XSt) : XSt :=
  s |> stack_st Recx |> movwx_ld Recx a |> shrwn_rx rg |> stack_ld Recx

/-- shrwn_st sequence (arithmetic). -/
def shrwn_st (rg : Opd) (a : Nat) (s : XSt) : XSt :=
  s |> stack_st Recx |> movwx_rr Recx rg |> shrwn_mx a |> stack_ld Recx

/-- divwx_ri sequence: stack_st(Reax); stack_st(Redx);
movwx_mi(Mebp, inf_SCR01(0), IM); movwx_rr(Reax, RM); prewx_rr();
divwx_xm(Mebp, inf_SCR01(0)); stack_ld(Redx); movwx_rr(RM, Reax);
stack_ld(Reax). -/
def divwx_ri (rm : Opd) (im : Imm) (s : XSt) : XSt :=
  s |> stack_st Reax |> stack_st Redx |> movwx_mi scr01Addr im
    |> movwx_rr Reax rm |> prewx_rr |> divwx_xm scr01Addr
    |> stack_ld Redx |> movwx_rr rm Reax |> stack_ld Reax

/-- divwx_rr sequence: stack_st(Reax); stack_st(Redx); movwx_rr(Reax, RG);
prewx_rr(); divwx_xr(RM); stack_ld(Redx); movwx_rr(RG, Reax);
stack_ld(Reax). -/
def divwx_rr (rg rm : Opd) (s : XSt) : XSt :=
  s |> stack_st Reax |> stack_st Redx |> movwx_rr Reax rg |> prewx_rr
    |> divwx_xr rm |> stack_ld Redx |> movwx_rr rg Reax |> stack_ld Reax

/-- divwx_ld sequence. -/
def divwx_ld (rg : Opd) (a : Nat) (s : XSt) : XSt :=
  s |> stack_st Reax |> stack_st Redx |> movwx_rr Reax rg |> prewx_rr
    |> divwx_xm a |> stack_ld Redx |> movwx_rr rg Reax |> stack_ld Reax

/-- divwn_ri sequence (signed). -/
def divwn_ri (rm : Opd) (im : Imm) (s : XSt) : XSt :=
  s |> stack_st Reax |> stack_st Redx |> movwx_mi scr01Addr im
    |> movwx_rr Reax rm |> prewn_rr |> divwn_xm scr01Addr
    |> stack_ld Redx |> movwx_rr rm Reax |> stack_ld Reax

/-- divwn_rr sequence (signed). -/
def divwn_rr (rg rm : Opd) (s : XSt) : XSt :=
  s |> stack_st Reax |> stack_st Redx |> movwx_rr Reax rg |> prewn_rr
    |> divwn_xr rm |> stack_ld Redx |> movwx_rr rg Reax |> stack_ld Reax

/-- divwn_ld sequence (signed). -/
def divwn_ld (rg : Opd) (a : Nat) (s : XSt) : XSt :=
  s |> stack_st Reax |> stack_st Redx |> movwx_rr Reax rg |> prewn_rr
    |> divwn_xm a |> stack_ld Redx |> movwx_rr rg Reax |> stack_ld Reax

/-- remwx_ri sequence: stack_st(Redx); stack_st(Reax);
movwx_mi(Mebp, inf_SCR01(0), IM); movwx_rr(Reax, RM); prewx_rr();
divwx_xm(Mebp, inf_SCR01(0)); stack_ld(Reax); movwx_rr(RM, Redx);
stack_ld(Redx). -/
def remwx_ri (rm : Opd) (im : Imm) (s : XSt) : XSt :=
  s |> stack_st Redx |> stack_st Reax |> movwx_mi scr01Addr im
    |> movwx_rr Reax rm |> prewx_rr |> divwx_xm scr01Addr
    |> stack_ld Reax |> movwx_rr rm Redx |> stack_ld Redx

/-- remwx_rr sequence. -/
def remwx_rr (rg rm : Opd) (s : XSt) : XSt :=
  s |> stack_st Redx |> stack_st Reax |> movwx_rr Reax rg |> prewx_rr
    |> divwx_xr rm |> stack_ld Reax |> movwx_rr rg Redx |> stack_ld Redx

/-- remwx_ld sequence. -/
def remwx_ld (rg : Opd) (a : Nat) (s : XSt) : XSt :=
  s |> stack_st Redx |> stack_st Reax |> movwx_rr Reax rg |> prewx_rr
    |> divwx_xm a |> stack_ld Reax |> movwx_rr rg Redx |> stack_ld Redx

/-- remwn_ri sequence (signed). -/
def remwn_ri (rm : Opd) (im : Imm) (s : XSt) : XSt :=
  s |> stack_st Redx |> stack_st Reax |> movwx_mi scr01Addr im
    |> movwx_rr Reax rm |> prewn_rr |> divwn_xm scr01Addr
    |> stack_ld Reax |> movwx_rr rm Redx |> stack_ld Redx

/-- remwn_rr sequence (signed). -/
def remwn_rr (rg rm : Opd) (s : XSt) : XSt :=
  s |> stack_st Redx |> stack_st Reax |> movwx_rr Reax rg |> prewn_rr
    |> divwn_xr rm |> stack_ld Reax |> movwx_rr rg Redx |> stack_ld Redx

/-- remwn_ld sequence (signed). -/
def remwn_ld (rg : Opd) (a : Nat) (s : XSt) : XSt :=
  s |> stack_st Redx |> stack_st Reax |> movwx_rr Reax rg |> prewn_rr
    |> divwn_xm a |> stack_ld Reax |> movwx_rr rg Redx |> stack_ld Redx

/-- After/before relation: all registers except d and the whole stack are
unchanged. -/
def regsPreservedExcept (s t : XSt) (d : Nat) : Prop :=
  (∀ r, r ≠ d → t.regs r = s.regs r) ∧ t.stack = s.stack

/-- After/before relation: all registers and the whole stack unchanged. -/
def framePreserved (s t : XSt) : Prop :=
  (∀ r, t.regs r = s.regs r) ∧ t.stack = s.stack

end X86

namespace Arm128

/-! ## ARMv7 NEON 128-bit SIMD (rtarch_arm_128.h) -/

/-- A 128-bit SIMD register as four 32-bit lanes. -/
def Vec4 := Fin 4 → Nat

/-- Lane-wise semantics of the NEON bitwise ops used by the mmv sequences
(complement is taken within a 32-bit lane, modelled as xor with
0xFFFFFFFF as documented by the source comments: and G = G and S,
ann G = (not G) and S, orr G = G or S, not G = not G). -/
def compl32 (x : Nat) : Nat := 0xFFFFFFFF ^^^ x

/-- notox_rx: G := not G, lane-wise. -/
def notox_rx (g : Vec4) : Vec4 := fun i => compl32 (g i)

/-- andox_rr: G := G and S, lane-wise. -/
def andox_rr (g s : Vec4) : Vec4 := fun i => g i &&& s i

/-- annox (register or loaded-memory source): G := (not G) and S. -/
def annox (g s : Vec4) : Vec4 := fun i => compl32 (g i) &&& s i

/-- orrox_rr: G := G or S, lane-wise. -/
def orrox_rr (g s : Vec4) : Vec4 := fun i => g i ||| s i

/-- mmvox_ld sequence from rtarch_arm_128.h, with Xmm0 the implicit mask
register (destroyed) and mem the loaded source:
notox_rx(Xmm0); andox_rr(XG, Xmm0); annox_ld(Xmm0, MS, DS);
orrox_rr(XG, Xmm0).  Returns (final XG, final Xmm0). -/
def mmvox_ld (xg xmm0 mem : Vec4) : Vec4 × Vec4 :=
  let m1 := notox_rx xmm0
  let g1 := andox_rr xg m1
  let m2 := annox m1 mem
  let g2 := orrox_rr g1 m2
  (g2, m2)

/-- mmvox_st sequence from rtarch_arm_128.h:
andox_rr(XS, Xmm0); annox_ld(Xmm0, MG, DG); orrox_rr(Xmm0, XS);
movox_st(Xmm0, MG, DG).  Returns (final memory, final XS, final Xmm0). -/
def mmvox_st (xs xmm0 mem : Vec4) : Vec4 × Vec4 × Vec4 :=
  let s1 := andox_rr xs xmm0
  let m1 := annox xmm0 mem
  let m2 := orrox_rr m1 s1
  (m2, s1, m2)

/-- The masked/predicated-write formula stated by the spec:
result = (old and not maskBits) or (new and maskBits), with the
complement taken within the element width (w is the all-ones value of
the width). -/
def mergeFormula (w old new m : Nat) : Nat :=
  (old &&& (w ^^^ m)) ||| (new &&& m)

/-! ### Emulated divide word lists (claim C4)

The emitted 32-bit instruction words of divos_rr under the three build
configurations; words are built exactly as in the source, base opcode
or-ed with the MXM register fields. -/

/-- MXM field packing from rtarch_arm_128.h. -/
def MXM (reg ren rem : Nat) : Nat :=
  (rem &&& 0x0F) <<< 0 ||| (rem &&& 0x10) <<< 1 |||
  (ren &&& 0x0F) <<< 16 ||| (ren &&& 0x10) <<< 3 |||
  (reg &&& 0x0F) <<< 12 ||| (reg &&& 0x10) <<< 18

/-- Scratch SIMD register TmmM (q8). -/
def TmmM : Nat := 0x10

/-- Scratch SIMD register TmmC (q9). -/
def TmmC : Nat := 0x12

/-- Scratch SIMD register TmmD (q10). -/
def TmmD : Nat := 0x14

/-- REG code of SIMD register Xmm-i (Xmm0 = 0x00 .. Xmm7 = 0x0E). -/
def xregCode (i : Fin 8) : Nat := 2 * i.val

/-- divos_rr under RT_SIMD_COMPAT_DIV == 1: four native VFP vdiv.f32
words (two per double-register half). -/
def divos_rr_compat (xg xs : Nat) : List Nat :=
  [0xEE800A00 ||| MXM (xg + 0) (xg + 0) (xs + 0),
   0xEEC00AA0 ||| MXM (xg + 0) (xg + 0) (xs + 0),
   0xEE800A00 ||| MXM (xg + 1) (xg + 1) (xs + 1),
   0xEEC00AA0 ||| MXM (xg + 1) (xg + 1) (xs + 1)]

/-- divos_rr emulation for RT_128 < 2: vrecpe estimate, three
Newton-Raphson vrecps corrections each followed by a vmul post-multiply,
then the residual-correction tail (mul, sub-residual, add-correction,
orr-move). -/
def divos_rr_v1 (xg xs : Nat) : List Nat :=
  [0xF3BB0540 ||| MXM TmmM 0x00 xs,
   0xF2000F50 ||| MXM TmmC TmmM xs,
   0xF3000D50 ||| MXM TmmM TmmM TmmC,
   0xF2000F50 ||| MXM TmmC TmmM xs,
   0xF3000D50 ||| MXM TmmM TmmM TmmC,
   0xF2000F50 ||| MXM TmmC TmmM xs,
   0xF3000D50 ||| MXM TmmM TmmM TmmC,
   0xF3000D50 ||| MXM TmmC xg TmmM,
   0xF2200D50 ||| MXM xg xs TmmC,
   0xF2000D50 ||| MXM TmmC xg TmmM,
   0xF2200150 ||| MXM xg TmmC TmmC]

/-- divos_rr emulation for RT_128 >= 2 (ASIMDv2, FMA available): vrecpe
estimate, one Newton-Raphson vrecps correction with vmul post-multiply,
then the fused-multiply residual-correction tail (vfms residual, vfma
correction, orr-move). -/
def divos_rr_v2 (xg xs : Nat) : List Nat :=
  [0xF3BB0540 ||| MXM TmmM 0x00 xs,
   0xF2000F50 ||| MXM TmmC TmmM xs,
   0xF3000D50 ||| MXM TmmM TmmM TmmC,
   0xF3000D50 ||| MXM TmmC xg TmmM,
   0xF2200C50 ||| MXM xg xs TmmC,
   0xF2000C50 ||| MXM TmmC xg TmmM,
   0xF2200150 ||| MXM xg TmmC TmmC]

/-- divos_rr as selected by the build configuration (the preprocessor
conditions RT_SIMD_COMPAT_DIV == 1 and RT_128 < 2 become the two
parameters; the selection is a pure function of the configuration). -/
def divos_rr (compatDiv : Bool) (rt128 : Nat) (xg xs : Nat) : List Nat :=
  if compatDiv then divos_rr_compat xg xs
  else if rt128 < 2 then divos_rr_v1 xg xs
  else divos_rr_v2 xg xs

/-- Opcode bits of an emitted NEON/VFP word: the word with the MXM
register fields masked out (MXM occupies bits 0-3, 5, 7, 12-15, 16-19
and 22; the complement is 0xFFB00F50 or-ed with the remaining
non-field bits, i.e. 0xFF as top byte, bits 20-21, 23, and bits 4, 6,
8-11 of the low half). -/
def opcOf (w : Nat) : Nat := w &&& 0xFFB00F50

/-- Test for the VFP coprocessor space (the native vdiv.f32 words emitted
by the RT_SIMD_COMPAT_DIV == 1 path live at top byte 0xEE; the NEON
data-processing words of the emulated sequences live at 0xF2/0xF3). -/
def isVfpWord (w : Nat) : Bool := w >>> 24 == 0xEE

/-! ### FCTRL rounding-control blocks (claim C6) -/

/-- Machine state for the rounding-control sequences: the FPSCR control
register, the TNxx BASE register holding the default-mode control value
(set once on ASM_ENTER), the TIxx scratch BASE register, and the two
SIMD registers of the conversion. -/
structure FpSt where
  fpscr : Nat
  tn    : Nat
  ti    : Nat
  xd    : Vec4
  xs    : Vec4

/-- RT_SIMD_MODE_ROUNDP (round towards +inf), RT_SIMD_FLUSH_ZERO == 0. -/
def RT_SIMD_MODE_ROUNDP : Nat := 0x01

/-- RT_SIMD_MODE_ROUNDM (round towards -inf), RT_SIMD_FLUSH_ZERO == 0. -/
def RT_SIMD_MODE_ROUNDM : Nat := 0x02

/-- FCTRL_SET(mode) with RT_SIMD_FAST_FCTRL == 0: mov TIxx with the
rotated immediate 0x500|mode (the mode value at FPSCR bits 23:22,
i.e. mode << 22), then vmsr FPSCR, TIxx. -/
def FCTRL_SET (mode : Nat) (s : FpSt) : FpSt :=
  { s with ti := mode <<< 22, fpscr := mode <<< 22 }

/-- FCTRL_RESET(): vmsr FPSCR, TNxx — resumes the default mode held in
TNxx. -/
def FCTRL_RESET (s : FpSt) : FpSt :=
  { s with fpscr := s.tn }

/-- Modelled from the spec: FCTRL_ENTER(mode), defined in rtbase.h (not
among the provided sources), opens the scoped rounding-mode block by
applying the in-source FCTRL_SET(mode). -/
def FCTRL_ENTER (mode : Nat) (s : FpSt) : FpSt := FCTRL_SET mode s

/-- Modelled from the spec: FCTRL_LEAVE(mode), defined in rtbase.h (not
among the provided sources), closes the scoped rounding-mode block by
applying the in-source FCTRL_RESET(), which restores the default-mode
control value kept in TNxx. -/
def FCTRL_LEAVE (_mode : Nat) (s : FpSt) : FpSt := FCTRL_RESET s

/-- cvtos_rr: VFP float-to-integer conversion of XS into XD, taking the
rounding mode from FPSCR; the conversion function itself is abstracted
as the parameter conv (it reads the control register and the source,
and writes only XD). -/
def cvtos_rr (conv : Nat → Vec4 → Vec4) (s : FpSt) : FpSt :=
  { s with xd := conv s.fpscr s.xs }

/-- cvpos_rr (round towards +inf):
FCTRL_ENTER(ROUNDP); cvtos_rr(XD, XS); FCTRL_LEAVE(ROUNDP). -/
def cvpos_rr (conv : Nat → Vec4 → Vec4) (s : FpSt) : FpSt :=
  s |> FCTRL_ENTER RT_SIMD_MODE_ROUNDP |> cvtos_rr conv
    |> FCTRL_LEAVE RT_SIMD_MODE_ROUNDP

/-- cvmos_rr (round towards -inf):
FCTRL_ENTER(ROUNDM); cvtos_rr(XD, XS); FCTRL_LEAVE(ROUNDM). -/
def cvmos_rr (conv : Nat → Vec4 → Vec4) (s : FpSt) : FpSt :=
  s |> FCTRL_ENTER RT_SIMD_MODE_ROUNDM |> cvtos_rr conv
    |> FCTRL_LEAVE RT_SIMD_MODE_ROUNDM

end Arm128

namespace X64v8

/-! ## x64 AVX-512 512-bit SIMD (rtarch_x64_512x1v8.h) -/

/-- A 512-bit SIMD register as eight 64-bit lanes. -/
def Vec8 := Fin 8 → Nat

/-- Modelled from the spec: the inf_GPC07 constant of rtbase.h (not among
the provided sources) holds -1 in every element, per the mmv comment in
the source (mask-elem: 0 keeps G, -1 picks S): every 64-bit lane is
all-ones. -/
def gpc07 : Nat := 2 ^ 64 - 1

/-- ck1qx_rm(Xmm0, Mebp, inf_GPC07): per-lane compare-equal of the mask
register against the all-ones constant, producing the k1 predicate
(vpcmpeqq into mask register 1). -/
def ck1qx (x : Vec8) : Fin 8 → Bool := fun i => x i == gpc07

/-- mmvqx_rr: ck1qx on Xmm0, then the k1-merge-masked register move
(EKW-prefixed vmovapd): lanes selected by k1 take XS, others keep XG. -/
def mmvqx_rr (xg xs xmm0 : Vec8) : Vec8 :=
  fun i => if ck1qx xmm0 i then xs i else xg i

/-- mmvqx_ld: k1-merge-masked load: selected lanes take the memory
operand, others keep XG. -/
def mmvqx_ld (xg mem xmm0 : Vec8) : Vec8 :=
  fun i => if ck1qx xmm0 i then mem i else xg i

/-- mmvqx_st: k1-masked store: selected memory lanes take XS, unselected
memory lanes are left unchanged. -/
def mmvqx_st (xs mem xmm0 : Vec8) : Vec8 :=
  fun i => if ck1qx xmm0 i then xs i else mem i

/-! ### Emulated 64-bit packed multiply (claim C5) -/

/-- Machine state for the mulqx emulation: 64-bit BASE registers (by REG
code), the stack, the two 512-bit scratch slots inf_SCR01/inf_SCR02 as
eight 64-bit cells each (cell i at byte offset 8*i), and the SIMD
register file (by REG code). -/
structure QSt where
  base  : Nat → Nat
  stack : List Nat
  scr01 : Fin 8 → Nat
  scr02 : Fin 8 → Nat
  simd  : Nat → Vec8

/-- stack_st(Recx) in the 64-bit BASE subset: push rcx. -/
def qstack_st (rm : X86.Opd) (s : QSt) : QSt :=
  { s with stack := s.base rm.reg :: s.stack }

/-- stack_ld(Recx) in the 64-bit BASE subset: pop rcx. -/
def qstack_ld (rm : X86.Opd) (s : QSt) : QSt :=
  match s.stack with
  | [] => { s with base := X86.upd s.base rm.reg 0 }
  | v :: t => { s with base := X86.upd s.base rm.reg v, stack := t }

/-- movqx_st(XS, Mebp, inf_SCR01(0)): store all eight lanes of XS into
the SCR01 cells. -/
def movqx_st_scr01 (xs : Nat) (s : QSt) : QSt :=
  { s with scr01 := s.simd xs }

/-- movqx_st(XT, Mebp, inf_SCR02(0)): store all eight lanes into SCR02. -/
def movqx_st_scr02 (xt : Nat) (s : QSt) : QSt :=
  { s with scr02 := s.simd xt }

/-- movqx_ld(XD, Mebp, inf_SCR01(0)): load the SCR01 cells into XD. -/
def movqx_ld_scr01 (xd : Nat) (s : QSt) : QSt :=
  { s with simd := fun r => if r = xd then s.scr01 else s.simd r }

/-- Modelled from the spec: movzx_ld (64-bit BASE mov from memory, defined
in the 64-bit BASE header not among the provided sources): register :=
SCR01 cell i. -/
def movzx_ld_scr01 (rd : X86.Opd) (i : Fin 8) (s : QSt) : QSt :=
  { s with base := X86.upd s.base rd.reg (s.scr01 i) }

/-- Modelled from the spec: mulzx_ld (64-bit BASE multiply from memory,
defined in the 64-bit BASE header not among the provided sources; the
spec calls for scalar 64-bit multiplies, i.e. the product modulo 2^64):
register := register * SCR02 cell i mod 2^64. -/
def mulzx_ld_scr02 (rg : X86.Opd) (i : Fin 8) (s : QSt) : QSt :=
  { s with base := X86.upd s.base rg.reg ((s.base rg.reg * s.scr02 i) % 2 ^ 64) }

/-- Modelled from the spec: movzx_st (64-bit BASE mov to memory): SCR01
cell i := register. -/
def movzx_st_scr01 (rs : X86.Opd) (i : Fin 8) (s : QSt) : QSt :=
  { s with scr01 := Function.update s.scr01 i (s.base rs.reg) }

/-- One lane block of mulqx_rx: movzx_ld(Recx, SCR01(8i));
mulzx_ld(Recx, SCR02(8i)); movzx_st(Recx, SCR01(8i)). -/
def mulLane (i : Fin 8) (s : QSt) : QSt :=
  s |> movzx_ld_scr01 X86.Recx i |> mulzx_ld_scr02 X86.Recx i
    |> movzx_st_scr01 X86.Recx i

/-- mulqx_rx from rtarch_x64_512x1v8.h (RT_512X1 == 1 or 4): push Recx,
the eight per-lane scalar multiplies over the scratch cells, pop Recx,
reload XD from SCR01. -/
def mulqx_rx (xd : Nat) (s : QSt) : QSt :=
  s |> qstack_st X86.Recx
    |> mulLane 0 |> mulLane 1 |> mulLane 2 |> mulLane 3
    |> mulLane 4 |> mulLane 5 |> mulLane 6 |> mulLane 7
    |> qstack_ld X86.Recx |> movqx_ld_scr01 xd

/-- mulqx3rr (RT_512X1 == 1 or 4): movqx_st(XS, SCR01); movqx_st(XT,
SCR02); mulqx_rx(XD). -/
def mulqx3rr (xd xs xt : Nat) (s : QSt) : QSt :=
  s |> movqx_st_scr01 xs |> movqx_st_scr02 xt |> mulqx_rx xd

/-- Modelled from the spec: lane-wise semantics of the native 64-bit
packed multiply (vpmullq, EVW map 2 opcode 0x40) emitted by mulqx3rr
when RT_512X1 is 2 or 8: each destination lane is the product of the
source lanes modulo 2^64. -/
def mulqx3rr_native (xd xs xt : Nat) (s : QSt) : QSt :=
  { s with simd := fun r =>
      if r = xd then fun i => (s.simd xs i * s.simd xt i) % 2 ^ 64
      else s.simd r }

/-! ### cvtqx control-word save/restore (claim C6) -/

/-- Byte offset of the inf_SCR01 scratch area (64 bytes). -/
def inf_SCR01 (n : Nat) : Nat := n

/-- Byte offset of the inf_SCR02 scratch area (placed after SCR01). -/
def inf_SCR02 (n : Nat) : Nat := 0x40 + n

/-- Machine state for the cvtqx sequence: x87 control word, MXCSR, the
scratch memory as cells addressed by byte offset, and the two SIMD
registers of the conversion. -/
structure CwSt where
  fpucw : Nat
  mxcsr : Nat
  scr   : Nat → Nat
  xd    : Vec8
  xs    : Vec8

/-- fpucw_st(Mebp, inf_SCR02(4)): store the x87 control word. -/
def fpucw_st (a : Nat) (s : CwSt) : CwSt :=
  { s with scr := X86.upd s.scr a s.fpucw }

/-- fpucw_ld(Mebp, a): load the x87 control word from memory. -/
def fpucw_ld (a : Nat) (s : CwSt) : CwSt :=
  { s with fpucw := s.scr a }

/-- mxcsr_st(Mebp, inf_SCR02(0)): store MXCSR. -/
def mxcsr_st (a : Nat) (s : CwSt) : CwSt :=
  { s with scr := X86.upd s.scr a s.mxcsr }

/-- shrwx_mi on a scratch cell: 32-bit logical shift right by the
immediate (masked to 5 bits). -/
def shrwx_mi (a : Nat) (im : X86.Imm) (s : CwSt) : CwSt :=
  { s with scr := X86.upd s.scr a ((s.scr a % 2 ^ 32) >>> (im.val &&& 0x1F)) }

/-- andwx_mi on a scratch cell: 32-bit and with the truncated immediate. -/
def andwx_mi (a : Nat) (im : X86.Imm) (s : CwSt) : CwSt :=
  { s with scr := X86.upd s.scr a (s.scr a &&& (im.val &&& X86.movTruncMask im.typ)) }

/-- orrwx_mi on a scratch cell: 32-bit or with the truncated immediate. -/
def orrwx_mi (a : Nat) (im : X86.Imm) (s : CwSt) : CwSt :=
  { s with scr := X86.upd s.scr a (s.scr a ||| (im.val &&& X86.movTruncMask im.typ)) }

/-- Footprint of the emulated cvnqx_rr (RT_512X1 == 1 or 4): per the
source listing it writes only the SCR01 area (movqx_st and the fpuzs_st
stores at byte offsets 0x00..0x3F) and the SCR02(0) cell (the movwx_mi
of the 2^64 bias constant); it contains no fpucw or mxcsr access. -/
def cvnqxWrites (a : Nat) : Bool := a < 0x40 || a == inf_SCR02 0

/-- cvnqx_rr (RT_512X1 == 1 or 4): the x87 unsigned-int-to-fp loop.  The
x87 arithmetic itself is abstracted: w gives the value left in each
written scratch cell and xdv the loaded destination (both may depend on
the machine state through the caller); the definition fixes exactly the
instruction footprint: scratch writes confined to cvnqxWrites, XD
written, control word and MXCSR untouched. -/
def cvnqx_rr (w : Nat → Nat) (xdv : Vec8) (s : CwSt) : CwSt :=
  { s with xd := xdv,
           scr := fun a => if cvnqxWrites a then w a else s.scr a }

/-- cvtqx_rr (RT_512X1 == 1 or 4) from rtarch_x64_512x1v8.h:
fpucw_st(SCR02(4)); mxcsr_st(SCR02(0)); shrwx_mi(SCR02(0), IB(3));
andwx_mi(SCR02(0), IH(0x0C00)); orrwx_mi(SCR02(0), IB(0x7F));
fpucw_ld(SCR02(0)); cvnqx_rr(XD, XS); fpucw_ld(SCR02(4)). -/
def cvtqx_rr (w : Nat → Nat) (xdv : Vec8) (s : CwSt) : CwSt :=
  s |> fpucw_st (inf_SCR02 4) |> mxcsr_st (inf_SCR02 0)
    |> shrwx_mi (inf_SCR02 0) (X86.IB 3)
    |> andwx_mi (inf_SCR02 0) (X86.IH 0x0C00)
    |> orrwx_mi (inf_SCR02 0) (X86.IB 0x7F)
    |> fpucw_ld (inf_SCR02 0)
    |> cvnqx_rr w xdv
    |> fpucw_ld (inf_SCR02 4)

end X64v8

/-! ## Helper lemmas -/

/-- Conjunction with the 32-bit all-ones word is the identity below 2^32. -/
theorem and_ones32 (v : Nat) (h : v < 2 ^ 32) : 0xFFFFFFFF &&& v = v := by
  have he : (0xFFFFFFFF : Nat) = 2 ^ 32 - 1 := by norm_num
  rw [he, Nat.land_comm, Nat.and_pow_two_sub_one_eq_mod, Nat.mod_eq_of_lt h]

/-- Conjunction with the 64-bit all-ones word is the identity below 2^64. -/
theorem and_ones64 (v : Nat) (h : v < 2 ^ 64) : v &&& X64v8.gpc07 = v := by
  rw [X64v8.gpc07, Nat.and_pow_two_sub_one_eq_mod, Nat.mod_eq_of_lt h]

/-- The all-zeros lane is not the all-ones lane. -/
theorem gpc07_ne_zero : ((0 : Nat) == X64v8.gpc07) = false := by decide

/-! ## Claim theorems -/

/-- Claim C1: for every displacement value v and displacement class K among
DP, DF, DG, DH, DV, the displacement field the encoder emits equals v after
K's documented mask (DP emits v & ((0xFFC*Q)|0xC), DF emits
v & ((0x3FFC*Q)|0xC), DG emits v & ((0x7FFC*Q)|0xC), DH emits
v & ((0xFFFC*Q)|0xC), DV emits v & 0x7FFFFFFC); likewise every immediate
class among IC, IB, IM, IG, IH, IV, IW emits its value after that class's
fixed mask (IC emits im & 0x7F, ..., IH emits im & 0xFFFF, ...). -/
theorem C1_displacement_immediate_fields :
    (∀ (K : X86.DispClass) (Q v : Nat),
      (X86.dispEncode K Q v).cmd.map Emit.val = [v &&& X86.dispMaskSpec K Q]) ∧
    (∀ (J : X86.ImmClass) (v : Nat),
      (X86.immEncode J v).cmd.map Emit.val = [v &&& X86.immMaskSpec J]) := by
  constructor
  · intro K Q v
    cases K <;> rfl
  · intro J v
    cases J <;> rfl

/-- Claim C2 counterexample: the claim asserts out-of-range values are
rejected at build time and never masked down, but the encoders are total
and mask silently: the shift immediate 33 (above 31) is emitted as
33 & 0x1F = 1, and the IC immediate 0x80 (above the 0x7F class mask) is
emitted as 0x00. -/
theorem C2_counterexample :
    (X86.shlwz_ri X86.Rebx (X86.IC 33)).map Emit.val = [0xC1, 0xE3, 1] ∧
    (1 : Nat) ≠ 33 ∧
    (X86.IC 0x80).cmd.map Emit.val = [0x00] ∧ (0x00 : Nat) ≠ 0x80 := by
  decide

/-- Claim C2 as amended: a displacement or immediate value wider than its
class's mask (and a shift immediate above 31) is not rejected: the encoder
is total and silently masks the value down to the class's field, so the
emitted field differs from the requested value. -/
theorem C2_amended_silent_masking (J : X86.ImmClass) (K : X86.DispClass)
    (Q u v dpv : Nat) (rm : X86.Opd)
    (hv : X86.immMaskSpec J < v) (hdp : X86.dispMaskSpec K Q < dpv) (hu : 31 < u) :
    ((X86.immEncode J v).cmd.map Emit.val = [v &&& X86.immMaskSpec J] ∧
      v &&& X86.immMaskSpec J ≠ v) ∧
    ((X86.dispEncode K Q dpv).cmd.map Emit.val = [dpv &&& X86.dispMaskSpec K Q] ∧
      dpv &&& X86.dispMaskSpec K Q ≠ dpv) ∧
    ((X86.shlwz_ri rm (X86.IW u)).map Emit.val =
      [0xC1, (X86.MRM 0x04 rm.md rm.reg).val, u &&& 0x1F] ∧
      u &&& 0x1F ≠ u) := by
  have h1 : v &&& X86.immMaskSpec J ≤ X86.immMaskSpec J := Nat.and_le_right
  have h2 : dpv &&& X86.dispMaskSpec K Q ≤ X86.dispMaskSpec K Q := Nat.and_le_right
  have h3 : u &&& 0x1F ≤ 0x1F := Nat.and_le_right
  refine ⟨⟨?_, by omega⟩, ⟨?_, by omega⟩, ⟨?_, by omega⟩⟩
  · cases J <;> rfl
  · cases K <;> rfl
  · rfl

/-- Witness for the amended claim C2 at concrete out-of-range inputs
(IC immediate 0x80, DP displacement 0x2000 at Q = 1, shift count 33). -/
theorem C2_amended_silent_masking_witness :
    ((X86.immEncode X86.ImmClass.ic 0x80).cmd.map Emit.val =
        [0x80 &&& X86.immMaskSpec X86.ImmClass.ic] ∧
      0x80 &&& X86.immMaskSpec X86.ImmClass.ic ≠ 0x80) ∧
    ((X86.dispEncode X86.DispClass.dp 1 0x2000).cmd.map Emit.val =
        [0x2000 &&& X86.dispMaskSpec X86.DispClass.dp 1] ∧
      0x2000 &&& X86.dispMaskSpec X86.DispClass.dp 1 ≠ 0x2000) ∧
    ((X86.shlwz_ri X86.Rebx (X86.IW 33)).map Emit.val =
        [0xC1, (X86.MRM 0x04 X86.Rebx.md X86.Rebx.reg).val, 33 &&& 0x1F] ∧
      33 &&& 0x1F ≠ 33) :=
  C2_amended_silent_masking X86.ImmClass.ic X86.DispClass.dp 1 33 0x80 0x2000
    X86.Rebx (by decide) (by decide) (by decide)


/-- Claim C3: for the masked-merge operation mmv, when every lane of the
mask is all-ones the destination becomes exactly the source, when every
lane is all-zeros the destination is left unchanged, and in general each
result lane equals (old and not maskBits) or (new and maskBits), with
maskBits all-ones or all-zeros per lane.  Covered shapes: the ARM NEON
load and store sequences (which satisfy the lane formula for arbitrary
masks) and the AVX-512 register-register, load and store forms (which
satisfy it for per-lane saturated masks, as produced by the library's
compare operations). -/
theorem C3_masked_merge_laws (g m v mOnes mZero : Arm128.Vec4)
    (G S M Mem MqOnes MqZero : X64v8.Vec8)
    (hg : ∀ i, g i < 2 ^ 32) (hv : ∀ i, v i < 2 ^ 32)
    (hOnes : ∀ i, mOnes i = 0xFFFFFFFF) (hZero : ∀ i, mZero i = 0)
    (hM : ∀ i, M i = 0 ∨ M i = X64v8.gpc07)
    (hG : ∀ i, G i < 2 ^ 64) (hS : ∀ i, S i < 2 ^ 64) (hMem : ∀ i, Mem i < 2 ^ 64)
    (hqOnes : ∀ i, MqOnes i = X64v8.gpc07) (hqZero : ∀ i, MqZero i = 0) :
    (∀ i, (Arm128.mmvox_ld g m v).1 i =
        Arm128.mergeFormula 0xFFFFFFFF (g i) (v i) (m i)) ∧
    (∀ i, (Arm128.mmvox_st v m g).1 i =
        Arm128.mergeFormula 0xFFFFFFFF (g i) (v i) (m i)) ∧
    (∀ i, (Arm128.mmvox_ld g mOnes v).1 i = v i) ∧
    (∀ i, (Arm128.mmvox_ld g mZero v).1 i = g i) ∧
    (∀ i, (Arm128.mmvox_st v mOnes g).1 i = v i) ∧
    (∀ i, (Arm128.mmvox_st v mZero g).1 i = g i) ∧
    (∀ i, X64v8.mmvqx_rr G S M i =
        Arm128.mergeFormula X64v8.gpc07 (G i) (S i) (M i)) ∧
    (∀ i, X64v8.mmvqx_ld G Mem M i =
        Arm128.mergeFormula X64v8.gpc07 (G i) (Mem i) (M i)) ∧
    (∀ i, X64v8.mmvqx_st S Mem M i =
        Arm128.mergeFormula X64v8.gpc07 (Mem i) (S i) (M i)) ∧
    (∀ i, X64v8.mmvqx_rr G S MqOnes i = S i) ∧
    (∀ i, X64v8.mmvqx_rr G S MqZero i = G i) := by
  have harm : ∀ (mm : Arm128.Vec4) (i : Fin 4), (Arm128.mmvox_ld g mm v).1 i =
      Arm128.mergeFormula 0xFFFFFFFF (g i) (v i) (mm i) := by
    intro mm i
    show (g i &&& (0xFFFFFFFF ^^^ mm i)) |||
        ((0xFFFFFFFF ^^^ (0xFFFFFFFF ^^^ mm i)) &&& v i) =
      (g i &&& (0xFFFFFFFF ^^^ mm i)) ||| (v i &&& mm i)
    rw [← Nat.xor_assoc, Nat.xor_self, Nat.zero_xor, Nat.land_comm (mm i) (v i)]
  have harmst : ∀ (mm : Arm128.Vec4) (i : Fin 4), (Arm128.mmvox_st v mm g).1 i =
      Arm128.mergeFormula 0xFFFFFFFF (g i) (v i) (mm i) := by
    intro mm i
    show ((0xFFFFFFFF ^^^ mm i) &&& g i) ||| (v i &&& mm i) =
      (g i &&& (0xFFFFFFFF ^^^ mm i)) ||| (v i &&& mm i)
    rw [Nat.land_comm (0xFFFFFFFF ^^^ mm i) (g i)]
  have hformones : ∀ old new : Nat, new < 2 ^ 32 →
      Arm128.mergeFormula 0xFFFFFFFF old new 0xFFFFFFFF = new := by
    intro old new hb
    show (old &&& (0xFFFFFFFF ^^^ 0xFFFFFFFF)) ||| (new &&& 0xFFFFFFFF) = new
    rw [Nat.xor_self, Nat.and_zero, Nat.zero_or, Nat.land_comm, and_ones32 new hb]
  have hformzero : ∀ old new : Nat, old < 2 ^ 32 →
      Arm128.mergeFormula 0xFFFFFFFF old new 0 = old := by
    intro old new hb
    show (old &&& (0xFFFFFFFF ^^^ 0)) ||| (new &&& 0) = old
    rw [Nat.xor_zero, Nat.and_zero, Nat.or_zero, Nat.land_comm, and_ones32 old hb]
  have hqx : ∀ old new mi : Nat, old < 2 ^ 64 → new < 2 ^ 64 →
      (mi = 0 ∨ mi = X64v8.gpc07) →
      (if (mi == X64v8.gpc07) = true then new else old) =
        Arm128.mergeFormula X64v8.gpc07 old new mi := by
    intro old new mi hold hnew hmi
    rcases hmi with h | h <;> subst h
    · simp only [gpc07_ne_zero, Bool.false_eq_true, if_false]
      show old = (old &&& (X64v8.gpc07 ^^^ 0)) ||| (new &&& 0)
      rw [Nat.xor_zero, Nat.and_zero, Nat.or_zero, and_ones64 old hold]
    · simp only [beq_self_eq_true, if_true]
      show new = (old &&& (X64v8.gpc07 ^^^ X64v8.gpc07)) ||| (new &&& X64v8.gpc07)
      rw [Nat.xor_self, Nat.and_zero, Nat.zero_or, and_ones64 new hnew]
  refine ⟨harm m, harmst m, ?_, ?_, ?_, ?_, ?_, ?_, ?_, ?_, ?_⟩
  · intro i
    rw [harm mOnes i, hOnes i, hformones (g i) (v i) (hv i)]
  · intro i
    rw [harm mZero i, hZero i, hformzero (g i) (v i) (hg i)]
  · intro i
    rw [harmst mOnes i, hOnes i, hformones (g i) (v i) (hv i)]
  · intro i
    rw [harmst mZero i, hZero i, hformzero (g i) (v i) (hg i)]
  · intro i
    exact hqx (G i) (S i) (M i) (hG i) (hS i) (hM i)
  · intro i
    exact hqx (G i) (Mem i) (M i) (hG i) (hMem i) (hM i)
  · intro i
    exact hqx (Mem i) (S i) (M i) (hMem i) (hS i) (hM i)
  · intro i
    simp [X64v8.mmvqx_rr, X64v8.ck1qx, hqOnes i]
  · intro i
    simp [X64v8.mmvqx_rr, X64v8.ck1qx, hqZero i, gpc07_ne_zero]

/-- Witness for claim C3 at concrete lane values: 32-bit lanes 7 (old) and
9 (new) with the general mask 0xFF00FF00, the all-ones and all-zeros
masks; 64-bit lanes 5 (old) and 6 (new) with a saturated mask that
alternates all-zeros and all-ones lanes. -/
theorem C3_masked_merge_laws_witness :
    (∀ i, (Arm128.mmvox_ld (fun _ => 7) (fun _ => 0xFF00FF00) (fun _ => 9)).1 i =
        Arm128.mergeFormula 0xFFFFFFFF 7 9 0xFF00FF00) ∧
    (∀ i, (Arm128.mmvox_st (fun _ => 9) (fun _ => 0xFF00FF00) (fun _ => 7)).1 i =
        Arm128.mergeFormula 0xFFFFFFFF 7 9 0xFF00FF00) ∧
    (∀ i, (Arm128.mmvox_ld (fun _ => 7) (fun _ => 0xFFFFFFFF) (fun _ => 9)).1 i = 9) ∧
    (∀ i, (Arm128.mmvox_ld (fun _ => 7) (fun _ => 0) (fun _ => 9)).1 i = 7) ∧
    (∀ i, (Arm128.mmvox_st (fun _ => 9) (fun _ => 0xFFFFFFFF) (fun _ => 7)).1 i = 9) ∧
    (∀ i, (Arm128.mmvox_st (fun _ => 9) (fun _ => 0) (fun _ => 7)).1 i = 7) ∧
    (∀ i : Fin 8, X64v8.mmvqx_rr (fun _ => 5) (fun _ => 6)
        (fun j => if j.val % 2 = 0 then 0 else X64v8.gpc07) i =
      Arm128.mergeFormula X64v8.gpc07 5 6
        (if i.val % 2 = 0 then 0 else X64v8.gpc07)) ∧
    (∀ i : Fin 8, X64v8.mmvqx_ld (fun _ => 5) (fun _ => 6)
        (fun j => if j.val % 2 = 0 then 0 else X64v8.gpc07) i =
      Arm128.mergeFormula X64v8.gpc07 5 6
        (if i.val % 2 = 0 then 0 else X64v8.gpc07)) ∧
    (∀ i : Fin 8, X64v8.mmvqx_st (fun _ => 6) (fun _ => 6)
        (fun j => if j.val % 2 = 0 then 0 else X64v8.gpc07) i =
      Arm128.mergeFormula X64v8.gpc07 6 6
        (if i.val % 2 = 0 then 0 else X64v8.gpc07)) ∧
    (∀ i : Fin 8, X64v8.mmvqx_rr (fun _ => 5) (fun _ => 6)
        (fun _ => X64v8.gpc07) i = 6) ∧
    (∀ i : Fin 8, X64v8.mmvqx_rr (fun _ => 5) (fun _ => 6) (fun _ => 0) i = 5) :=
  C3_masked_merge_laws (fun _ => 7) (fun _ => 0xFF00FF00) (fun _ => 9)
    (fun _ => 0xFFFFFFFF) (fun _ => 0)
    (fun _ => 5) (fun _ => 6)
    (fun j => if j.val % 2 = 0 then 0 else X64v8.gpc07) (fun _ => 6)
    (fun _ => X64v8.gpc07) (fun _ => 0)
    (fun _ => by norm_num) (fun _ => by norm_num)
    (fun _ => rfl) (fun _ => rfl)
    (fun i => by by_cases h : i.val % 2 = 0 <;> simp [h])
    (fun _ => by norm_num [X64v8.gpc07]) (fun _ => by norm_num [X64v8.gpc07])
    (fun _ => by norm_num [X64v8.gpc07])
    (fun _ => rfl) (fun _ => rfl)

/-- Claim C4: with RT_SIMD_COMPAT_DIV selecting emulation, divos_rr expands
to the fixed iterative-refinement sequence — for RT_128 < 2 the opcode
sequence is vrecpe estimate, then exactly three Newton-Raphson vrecps
corrections each followed by a vmul post-multiply, then the
residual-correction tail (mul, sub, add, orr: 11 words); for RT_128 >= 2
(values 2, 4, 8) it is the estimate, exactly one vrecps correction with its
vmul post-multiply, then the FMA residual-correction tail (mul, vfms, vfma,
orr: 7 words) — for every destination/source register pair, and no emitted
word lies in the VFP coprocessor space 0xEE of the native vdiv.f32
(which is exactly where every word of the RT_SIMD_COMPAT_DIV == 1 native
path lies); the sequence shape is a function of the configuration alone. -/
theorem C4_div_emulation_sequences : ∀ xg xs : Fin 8,
    (Arm128.divos_rr false 1 (Arm128.xregCode xg) (Arm128.xregCode xs)).map
        Arm128.opcOf =
      [0xF3B00540, 0xF2000F50, 0xF3000D50, 0xF2000F50, 0xF3000D50,
       0xF2000F50, 0xF3000D50, 0xF3000D50, 0xF2200D50, 0xF2000D50,
       0xF2200150] ∧
    (Arm128.divos_rr false 2 (Arm128.xregCode xg) (Arm128.xregCode xs)).map
        Arm128.opcOf =
      [0xF3B00540, 0xF2000F50, 0xF3000D50, 0xF3000D50, 0xF2200C50,
       0xF2000C50, 0xF2200150] ∧
    (Arm128.divos_rr false 4 (Arm128.xregCode xg) (Arm128.xregCode xs)).map
        Arm128.opcOf =
      [0xF3B00540, 0xF2000F50, 0xF3000D50, 0xF3000D50, 0xF2200C50,
       0xF2000C50, 0xF2200150] ∧
    (Arm128.divos_rr false 8 (Arm128.xregCode xg) (Arm128.xregCode xs)).map
        Arm128.opcOf =
      [0xF3B00540, 0xF2000F50, 0xF3000D50, 0xF3000D50, 0xF2200C50,
       0xF2000C50, 0xF2200150] ∧
    ((Arm128.divos_rr false 1 (Arm128.xregCode xg) (Arm128.xregCode xs)).map
        Arm128.opcOf).count 0xF2000F50 = 3 ∧
    ((Arm128.divos_rr false 2 (Arm128.xregCode xg) (Arm128.xregCode xs)).map
        Arm128.opcOf).count 0xF2000F50 = 1 ∧
    (Arm128.divos_rr false 1 (Arm128.xregCode xg) (Arm128.xregCode xs)).all
      (fun w => !Arm128.isVfpWord w) = true ∧
    (Arm128.divos_rr false 2 (Arm128.xregCode xg) (Arm128.xregCode xs)).all
      (fun w => !Arm128.isVfpWord w) = true ∧
    (Arm128.divos_rr true 1 (Arm128.xregCode xg) (Arm128.xregCode xs)).all
      Arm128.isVfpWord = true ∧
    (Arm128.divos_rr true 2 (Arm128.xregCode xg) (Arm128.xregCode xs)).all
      Arm128.isVfpWord = true := by
  decide

/-- Claim C5: the emulated 64-bit-element packed multiply selected when
RT_512X1 is 1 or 4 (store both operands to scratch memory, eight scalar
64-bit multiplies, one per element, reload the result) computes in each
lane the product of the corresponding source lanes modulo 2^64 — the same
lane-wise function as the native vpmullq emitted when RT_512X1 is 2 or 8. -/
theorem C5_mulqx_emulation_equivalence (s : X64v8.QSt) (xd xs xt : Nat) :
    (∀ i, (X64v8.mulqx3rr xd xs xt s).simd xd i =
        (s.simd xs i * s.simd xt i) % 2 ^ 64) ∧
    (∀ i, (X64v8.mulqx3rr_native xd xs xt s).simd xd i =
        (s.simd xs i * s.simd xt i) % 2 ^ 64) ∧
    (∀ i, (X64v8.mulqx3rr xd xs xt s).simd xd i =
        (X64v8.mulqx3rr_native xd xs xt s).simd xd i) := by
  have hemul : ∀ i, (X64v8.mulqx3rr xd xs xt s).simd xd i =
      (s.simd xs i * s.simd xt i) % 2 ^ 64 := by
    intro i
    fin_cases i <;>
      simp [X64v8.mulqx3rr, X64v8.mulqx_rx, X64v8.mulLane, X64v8.movqx_st_scr01,
        X64v8.movqx_st_scr02, X64v8.movqx_ld_scr01, X64v8.movzx_ld_scr01,
        X64v8.mulzx_ld_scr02, X64v8.movzx_st_scr01, X64v8.qstack_st,
        X64v8.qstack_ld, X86.upd, X86.Recx, Function.update]
  have hnat : ∀ i, (X64v8.mulqx3rr_native xd xs xt s).simd xd i =
      (s.simd xs i * s.simd xt i) % 2 ^ 64 := by
    intro i
    simp [X64v8.mulqx3rr_native]
  exact ⟨hemul, hnat, fun i => (hemul i).trans (hnat i).symm⟩

/-- Claim C6: the synthesized rounding-mode conversions restore the
floating-point rounding-control state on every exit path: on ARM,
cvpos_rr/cvmos_rr wrap the conversion in FCTRL_ENTER/FCTRL_LEAVE, and
FCTRL_LEAVE writes back the default-mode control value kept in TNxx, so
whenever the sequence starts from the default rounding state (the only
state possible outside an FCTRL block, which these sequences must not be
used inside) the FPSCR ends with the value it had before; on x86-64,
cvtqx_rr saves the x87 control word to SCR02(4) first and reloads it from
there last, so the control word (and MXCSR) is restored unconditionally. -/
theorem C6_rounding_control_restored (s : Arm128.FpSt)
    (conv : Nat → Arm128.Vec4 → Arm128.Vec4)
    (t : X64v8.CwSt) (w : Nat → Nat) (xdv : X64v8.Vec8)
    (hdefault : s.fpscr = s.tn) :
    (Arm128.cvpos_rr conv s).fpscr = s.fpscr ∧
    (Arm128.cvmos_rr conv s).fpscr = s.fpscr ∧
    (Arm128.cvpos_rr conv s).tn = s.tn ∧
    (Arm128.cvmos_rr conv s).tn = s.tn ∧
    (X64v8.cvtqx_rr w xdv t).fpucw = t.fpucw ∧
    (X64v8.cvtqx_rr w xdv t).mxcsr = t.mxcsr := by
  refine ⟨?_, ?_, rfl, rfl, ?_, rfl⟩
  · show s.tn = s.fpscr
    exact hdefault.symm
  · show s.tn = s.fpscr
    exact hdefault.symm
  · simp [X64v8.cvtqx_rr, X64v8.fpucw_st, X64v8.fpucw_ld, X64v8.mxcsr_st,
      X64v8.shrwx_mi, X64v8.andwx_mi, X64v8.orrwx_mi, X64v8.cvnqx_rr,
      X64v8.cvnqxWrites, X64v8.inf_SCR02, X86.upd]

/-- Witness for claim C6 at a concrete machine state in the default
rounding mode (FPSCR = TNxx = 0) with the identity conversion. -/
theorem C6_rounding_control_restored_witness :
    (Arm128.cvpos_rr (fun _ x => x)
        ⟨0, 0, 0, fun _ => 0, fun _ => 0⟩).fpscr =
      (⟨0, 0, 0, fun _ => 0, fun _ => 0⟩ : Arm128.FpSt).fpscr ∧
    (Arm128.cvmos_rr (fun _ x => x)
        ⟨0, 0, 0, fun _ => 0, fun _ => 0⟩).fpscr =
      (⟨0, 0, 0, fun _ => 0, fun _ => 0⟩ : Arm128.FpSt).fpscr ∧
    (Arm128.cvpos_rr (fun _ x => x)
        ⟨0, 0, 0, fun _ => 0, fun _ => 0⟩).tn =
      (⟨0, 0, 0, fun _ => 0, fun _ => 0⟩ : Arm128.FpSt).tn ∧
    (Arm128.cvmos_rr (fun _ x => x)
        ⟨0, 0, 0, fun _ => 0, fun _ => 0⟩).tn =
      (⟨0, 0, 0, fun _ => 0, fun _ => 0⟩ : Arm128.FpSt).tn ∧
    (X64v8.cvtqx_rr (fun _ => 0) (fun _ => 0)
        ⟨0x037F, 0x1F80, fun _ => 0, fun _ => 0, fun _ => 0⟩).fpucw =
      (⟨0x037F, 0x1F80, fun _ => 0, fun _ => 0, fun _ => 0⟩ : X64v8.CwSt).fpucw ∧
    (X64v8.cvtqx_rr (fun _ => 0) (fun _ => 0)
        ⟨0x037F, 0x1F80, fun _ => 0, fun _ => 0, fun _ => 0⟩).mxcsr =
      (⟨0x037F, 0x1F80, fun _ => 0, fun _ => 0, fun _ => 0⟩ : X64v8.CwSt).mxcsr :=
  C6_rounding_control_restored ⟨0, 0, 0, fun _ => 0, fun _ => 0⟩ (fun _ x => x)
    ⟨0x037F, 0x1F80, fun _ => 0, fun _ => 0, fun _ => 0⟩ (fun _ => 0) (fun _ => 0)
    rfl

/-- Claim C7: the ordered portable condition codes map signed and unsigned
variants to distinct native flag tests: LT_x emits jb while LT_n emits jl,
LE_x jbe vs LE_n jle, GT_x ja vs GT_n jg, GE_x jae vs GE_n jge; no ordered
signed variant shares its native branch mnemonic with its unsigned
counterpart. -/
theorem C7_condition_code_mapping :
    (∀ lb, X86.ccBranch X86.CondCode.ltX lb = (X86.Mnemonic.jb, lb) ∧
        X86.ccBranch X86.CondCode.ltN lb = (X86.Mnemonic.jl, lb) ∧
        X86.ccBranch X86.CondCode.leX lb = (X86.Mnemonic.jbe, lb) ∧
        X86.ccBranch X86.CondCode.leN lb = (X86.Mnemonic.jle, lb) ∧
        X86.ccBranch X86.CondCode.gtX lb = (X86.Mnemonic.ja, lb) ∧
        X86.ccBranch X86.CondCode.gtN lb = (X86.Mnemonic.jg, lb) ∧
        X86.ccBranch X86.CondCode.geX lb = (X86.Mnemonic.jae, lb) ∧
        X86.ccBranch X86.CondCode.geN lb = (X86.Mnemonic.jge, lb)) ∧
    (∀ lb, (X86.jltxx_lb lb).1 ≠ (X86.jltxn_lb lb).1 ∧
        (X86.jlexx_lb lb).1 ≠ (X86.jlexn_lb lb).1 ∧
        (X86.jgtxx_lb lb).1 ≠ (X86.jgtxn_lb lb).1 ∧
        (X86.jgexx_lb lb).1 ≠ (X86.jgexn_lb lb).1) := by
  constructor
  · intro lb
    exact ⟨rfl, rfl, rfl, rfl, rfl, rfl, rfl, rfl⟩
  · intro lb
    refine ⟨?_, ?_, ?_, ?_⟩ <;>
      simp [X86.jltxx_lb, X86.jltxn_lb, X86.jlexx_lb, X86.jlexn_lb,
        X86.jgtxx_lb, X86.jgtxn_lb, X86.jgexx_lb, X86.jgexn_lb]

/-- Claim C8 counterexample: the claim asserts that the add, sub, mul and
div register-from-immediate forms all share the 0x81|TYP(IM) opcode
layout, but mulwx_ri opens with the distinct opcode byte 0x69|TYP(IM)
(here at operands Rebx, IB(5): first emitted byte 0x69, not 0x81). -/
theorem C8_counterexample :
    (X86.mulwx_ri X86.Rebx (X86.IB 5)).head? = some (Emit.B 0x69) ∧
    (X86.addwz_ri X86.Rebx (X86.IB 5)).head? = some (Emit.B 0x81) ∧
    Emit.B 0x69 ≠ Emit.B (0x81 ||| (X86.IB 5).typ) := by
  decide

/-- Claim C8 as amended: the binary operations that share an operand shape
and a byte layout differ only in the numeric opcode-field constant — the
register-from-immediate forms of add, orr, and, sub, xor and cmp are all
instances of the single 0x81|TYP(IM) layout with ModRM reg-field constants
0x00, 0x01, 0x04, 0x05, 0x06, 0x07 respectively, and the
register-from-register forms of add and sub are instances of the single
two-byte layout with opcode constants 0x03 and 0x2B — while mul uses its
own distinct layouts (0x69|TYP(IM) with ModRM reg = REG(RM) for the
immediate form; the three-byte 0x0F 0xAF escape opcode for the register
form) and div has no single-instruction form at all (it is synthesized as
a multi-instruction fixed-register sequence). -/
theorem C8_amended_shared_layouts (rg rm : X86.Opd) (im : X86.Imm) :
    X86.addwz_ri rm im = X86.riLayout 0x00 rm im ∧
    X86.orrwz_ri rm im = X86.riLayout 0x01 rm im ∧
    X86.andwz_ri rm im = X86.riLayout 0x04 rm im ∧
    X86.subwz_ri rm im = X86.riLayout 0x05 rm im ∧
    X86.xorwz_ri rm im = X86.riLayout 0x06 rm im ∧
    X86.cmpwx_ri rm im = X86.riLayout 0x07 rm im ∧
    X86.addwz_rr rg rm = X86.rrLayout 0x03 rg rm ∧
    X86.subwz_rr rg rm = X86.rrLayout 0x2B rg rm ∧
    X86.mulwx_ri rm im =
      [Emit.B (0x69 ||| im.typ), X86.MRM rm.reg rm.md rm.reg] ++ im.cmd ∧
    (X86.mulwx_rr rg rm).length = 3 ∧
    (X86.rrLayout 0x03 rg rm).length = 2 :=
  ⟨rfl, rfl, rfl, rfl, rfl, rfl, rfl, rfl, rfl, rfl, rfl⟩

/-- Claim C10: every synthesized x86 BASE sequence that internally
commandeers a fixed register not named in its arguments — Recx for the
register-count shift forms (shl/shr, _rr/_ld/_st, logical and arithmetic),
Reax and Redx for div and rem (_ri/_rr/_ld, unsigned and signed) — saves
that register on the stack with stack_st before using it and restores it
with stack_ld before the sequence ends: after the sequence completes,
every register other than the declared destination holds the value it had
before, and the stack is balanced (the final stack equals the initial
stack).  The _st shift forms write only memory, so they preserve every
register. -/
theorem C10_commandeered_register_frame
    (s : X86.XSt) (rg rm : X86.Opd) (a : Nat) (im : X86.Imm) :
    X86.regsPreservedExcept s (X86.shlwz_rr rg rm s) rg.reg ∧
    X86.regsPreservedExcept s (X86.shlwz_ld rg a s) rg.reg ∧
    X86.framePreserved s (X86.shlwz_st rg a s) ∧
    X86.regsPreservedExcept s (X86.shrwz_rr rg rm s) rg.reg ∧
    X86.regsPreservedExcept s (X86.shrwz_ld rg a s) rg.reg ∧
    X86.framePreserved s (X86.shrwz_st rg a s) ∧
    X86.regsPreservedExcept s (X86.shrwn_rr rg rm s) rg.reg ∧
    X86.regsPreservedExcept s (X86.shrwn_ld rg a s) rg.reg ∧
    X86.framePreserved s (X86.shrwn_st rg a s) ∧
    X86.regsPreservedExcept s (X86.divwx_ri rm im s) rm.reg ∧
    X86.regsPreservedExcept s (X86.divwx_rr rg rm s) rg.reg ∧
    X86.regsPreservedExcept s (X86.divwx_ld rg a s) rg.reg ∧
    X86.regsPreservedExcept s (X86.divwn_ri rm im s) rm.reg ∧
    X86.regsPreservedExcept s (X86.divwn_rr rg rm s) rg.reg ∧
    X86.regsPreservedExcept s (X86.divwn_ld rg a s) rg.reg ∧
    X86.regsPreservedExcept s (X86.remwx_ri rm im s) rm.reg ∧
    X86.regsPreservedExcept s (X86.remwx_rr rg rm s) rg.reg ∧
    X86.regsPreservedExcept s (X86.remwx_ld rg a s) rg.reg ∧
    X86.regsPreservedExcept s (X86.remwn_ri rm im s) rm.reg ∧
    X86.regsPreservedExcept s (X86.remwn_rr rg rm s) rg.reg ∧
    X86.regsPreservedExcept s (X86.remwn_ld rg a s) rg.reg := by
  refine ⟨?_, ?_, ?_, ?_, ?_, ?_, ?_, ?_, ?_, ?_, ?_, ?_, ?_, ?_, ?_, ?_, ?_,
    ?_, ?_, ?_, ?_⟩
  all_goals constructor
  all_goals try first
  | intro r hr
  | intro r
  all_goals try rfl
  all_goals
    by_cases h0 : r = 0 <;> by_cases h1 : r = 1 <;> by_cases h2 : r = 2 <;>
      simp_all [X86.shlwz_rr, X86.shlwz_ld, X86.shlwz_st, X86.shrwz_rr,
        X86.shrwz_ld, X86.shrwz_st, X86.shrwn_rr, X86.shrwn_ld, X86.shrwn_st,
        X86.divwx_ri, X86.divwx_rr, X86.divwx_ld, X86.divwn_ri, X86.divwn_rr,
        X86.divwn_ld, X86.remwx_ri, X86.remwx_rr, X86.remwx_ld, X86.remwn_ri,
        X86.remwn_rr, X86.remwn_ld, X86.stack_st, X86.stack_ld, X86.movwx_rr,
        X86.movwx_ld, X86.movwx_ri, X86.movwx_mi, X86.prewx_rr, X86.prewx_xx,
        X86.prewn_rr, X86.prewn_xx, X86.shrwn_ri, X86.shlwz_rx, X86.shlwz_mx,
        X86.shrwz_rx, X86.shrwz_mx, X86.shrwn_rx, X86.shrwn_mx, X86.divwx_xr,
        X86.divwx_xm, X86.divwn_xr, X86.divwn_xm, X86.divStepU, X86.divStepS,
        X86.upd, X86.Reax, X86.Recx, X86.Redx]

end UniSIMD
